import Mathlib

set_option maxRecDepth 100000

/-
Shallow embedding of the PlugSafe threat-classification and keystroke-rate
monitoring core.

Sources embedded:
  * src/hid_monitor.c      — Rate Monitor (windowed report-rate tracking)
  * src/threat_analyzer.c  — Threat Classifier (static + dynamic classification)
  * usb_host.c (unnamed part_012) — TinyUSB callbacks `tuh_hid_mount_cb` and
    `tuh_hid_report_received_cb`, which wire the two components together.

Modelling conventions:
  * The fixed C arrays `g_hid_monitors[MAX_HID_DEVICES]` and
    `g_threat_devices[MAX_TRACKED_DEVICES]` become lists of slot records;
    the C "scan the array, act on the first matching slot, else fall through"
    loops become `findFirst` / `updateFirst` over those lists.
  * Machine integers (`uint8_t` addresses, `uint32_t` counters, `uint64_t`
    millisecond timestamps) are modelled as `Nat`.  None of the counters can
    overflow within any behaviour the claims quantify over, and the
    millisecond clock `to_ms_since_boot` is monotone, so `now ≥
    last_window_start_ms` holds in every reachable state and truncated `Nat`
    subtraction agrees with the C `uint64_t` subtraction there.
  * C functions that return pointers into a table (`hid_get_monitor_stats`,
    `threat_get_device_status`) are split into a pure lookup returning the
    found record and, at each mutating call site, an `updateFirst` with the
    same match predicate — faithful to "find the slot, then mutate it in
    place".
  * Fields that only feed `printf` logging (vid/pid, manufacturer / product /
    serial strings, connected_time_ms) are omitted: they never influence
    control flow in the embedded functions.  The HID `instance` field set by
    `tuh_hid_mount_cb` is likewise omitted (nothing embedded reads it).
  * `const uint8_t *report` / `uint16_t len` parameters of
    `hid_monitor_report` and `threat_update_hid_activity` are unused by the
    C bodies (beyond logging) and are dropped.
-/

/-! ## Generic bounded-table helpers -/

/-- First element of a list satisfying `p`, if any (the C pattern
`for (i...) if (match) return &table[i]; return NULL;`). -/
def findFirst (p : α → Bool) : List α → Option α
  | [] => none
  | x :: xs => if p x then some x else findFirst p xs

/-- Replace the first element satisfying `p` by its image under `f`;
identity when no element matches (the C pattern
`for (i...) if (match) { mutate table[i]; return; }`). -/
def updateFirst (p : α → Bool) (f : α → α) : List α → List α
  | [] => []
  | x :: xs => if p x then f x :: xs else x :: updateFirst p f xs

/-! ## Constants (hid_monitor.h / threat_analyzer.h) -/

def HID_KEYSTROKE_THRESHOLD_HZ : Nat := 50

def KEYSTROKE_RATE_WINDOW_MS : Nat := 1000

def MAX_HID_DEVICES : Nat := 4

def MAX_TRACKED_DEVICES : Nat := 4

/-- `threat_level_e`: THREAT_SAFE = 0. -/
def THREAT_SAFE : Nat := 0

/-- `threat_level_e`: THREAT_POTENTIALLY_UNSAFE = 1 (rendered CAUTION). -/
def THREAT_POTENTIALLY_UNSAFE : Nat := 1

/-- `threat_level_e`: THREAT_MALICIOUS = 2. -/
def THREAT_MALICIOUS : Nat := 2

/-! ## Data model -/

/-- `usb_device_info_t` (usb_host.h), restricted to the fields the embedded
functions read: address, device class, HID flag, HID interface protocol
(0 = none/other, 1 = keyboard, 2 = mouse) and the mounted flag. -/
structure usb_device_info_t where
  dev_addr : Nat
  usb_class : Nat
  is_hid : Bool
  hid_protocol : Nat
  is_mounted : Bool
deriving DecidableEq

/-- `hid_monitor_t` (hid_monitor.h): one Rate Sample slot. -/
structure hid_monitor_t where
  dev_addr : Nat
  total_reports : Nat
  reports_this_second : Nat
  last_window_start_ms : Nat
  peak_rate_hz : Nat
  current_rate_hz : Nat
  is_monitoring : Bool
deriving DecidableEq

/-- `device_threat_t` (threat_analyzer.h): one Threat Record. -/
structure device_threat_t where
  device : usb_device_info_t
  threat_level : Nat
  hid_report_count : Nat
  hid_reports_per_sec : Nat
  is_active : Bool
deriving DecidableEq

/-- All-zero `usb_device_info_t` (result of `memset(.., 0, ..)`). -/
def zeroDevInfo : usb_device_info_t :=
  { dev_addr := 0, usb_class := 0, is_hid := false, hid_protocol := 0, is_mounted := false }

/-- All-zero `hid_monitor_t` slot. -/
def zeroMonitor : hid_monitor_t :=
  { dev_addr := 0, total_reports := 0, reports_this_second := 0,
    last_window_start_ms := 0, peak_rate_hz := 0, current_rate_hz := 0,
    is_monitoring := false }

/-- All-zero `device_threat_t` slot. -/
def zeroThreat : device_threat_t :=
  { device := zeroDevInfo, threat_level := 0, hid_report_count := 0,
    hid_reports_per_sec := 0, is_active := false }

/-- `g_hid_monitors` after `hid_monitor_init` (memset to zero). -/
def initMonitors : List hid_monitor_t := List.replicate MAX_HID_DEVICES zeroMonitor

/-- `g_threat_devices` after `threat_analyzer_init` (memset to zero). -/
def initThreats : List device_threat_t := List.replicate MAX_TRACKED_DEVICES zeroThreat

/-! ## Rate Monitor (hid_monitor.c) -/

/-- Slot-match predicate of `hid_get_monitor_stats` / `hid_monitor_report`:
`g_hid_monitors[i].dev_addr == dev_addr && g_hid_monitors[i].is_monitoring`. -/
def monMatch (dev_addr : Nat) (m : hid_monitor_t) : Bool :=
  m.dev_addr == dev_addr && m.is_monitoring

/-- `hid_get_monitor_stats`: first monitoring slot for the address, else NULL. -/
def hid_get_monitor_stats (s : List hid_monitor_t) (dev_addr : Nat) : Option hid_monitor_t :=
  findFirst (monMatch dev_addr) s

/-- The slot contents written by `hid_monitor_add_device` into a free slot:
memset to zero, then `dev_addr`, `is_monitoring = true`,
`last_window_start_ms = get_time_ms()`. -/
def freshMonitor (dev_addr now : Nat) : hid_monitor_t :=
  { zeroMonitor with dev_addr := dev_addr, is_monitoring := true,
                     last_window_start_ms := now }

/-- `hid_monitor_add_device`: claim the first free (`!is_monitoring`) slot;
if every slot is busy, log a warning and return with no effect.  Note the C
code does not look for an existing slot with the same address first. -/
def hid_monitor_add_device (s : List hid_monitor_t) (dev_addr now : Nat) :
    List hid_monitor_t :=
  updateFirst (fun m => !m.is_monitoring) (fun _ => freshMonitor dev_addr now) s

/-- Body of `hid_monitor_report` once the monitor slot has been found:
increment lifetime and window counters, then, if the elapsed time since
window start has reached `KEYSTROKE_RATE_WINDOW_MS`, close the window
(`current_rate_hz = reports_this_second * 1000 / elapsed_ms`, raise
`peak_rate_hz` if exceeded, reset the window). -/
def reportStep (now : Nat) (m : hid_monitor_t) : hid_monitor_t :=
  let m := { m with total_reports := m.total_reports + 1,
                    reports_this_second := m.reports_this_second + 1 }
  if now - m.last_window_start_ms ≥ KEYSTROKE_RATE_WINDOW_MS then
    let elapsed_ms := now - m.last_window_start_ms
    let m := { m with current_rate_hz := m.reports_this_second * 1000 / elapsed_ms }
    let m := if m.current_rate_hz > m.peak_rate_hz
             then { m with peak_rate_hz := m.current_rate_hz } else m
    { m with last_window_start_ms := now, reports_this_second := 0 }
  else m

/-- `hid_monitor_report`: a no-op when `hid_get_monitor_stats` returns NULL,
otherwise `reportStep` applied in place to the found slot. -/
def hid_monitor_report (s : List hid_monitor_t) (dev_addr now : Nat) :
    List hid_monitor_t :=
  updateFirst (monMatch dev_addr) (reportStep now) s

/-- `hid_get_keystroke_rate`: `current_rate_hz` of the slot, or 0 if NULL. -/
def hid_get_keystroke_rate (s : List hid_monitor_t) (dev_addr : Nat) : Nat :=
  match hid_get_monitor_stats s dev_addr with
  | some m => m.current_rate_hz
  | none => 0

/-- `hid_is_spammy`: slot exists and `current_rate_hz > HID_KEYSTROKE_THRESHOLD_HZ`. -/
def hid_is_spammy (s : List hid_monitor_t) (dev_addr : Nat) : Bool :=
  match hid_get_monitor_stats s dev_addr with
  | some m => decide (m.current_rate_hz > HID_KEYSTROKE_THRESHOLD_HZ)
  | none => false

/-- `hid_monitor_remove_device`: memset the first monitoring slot for the
address back to zero. -/
def hid_monitor_remove_device (s : List hid_monitor_t) (dev_addr : Nat) :
    List hid_monitor_t :=
  updateFirst (monMatch dev_addr) (fun _ => zeroMonitor) s

/-! ## Threat Classifier (threat_analyzer.c) -/

/-- Slot-match predicate of `threat_get_device_status`:
`device.dev_addr == dev_addr && device.is_mounted`. -/
def thMatch (dev_addr : Nat) (t : device_threat_t) : Bool :=
  t.device.dev_addr == dev_addr && t.device.is_mounted

/-- `threat_get_device_status`: lookup only — does NOT auto-create. -/
def threat_get_device_status (s : List device_threat_t) (dev_addr : Nat) :
    Option device_threat_t :=
  findFirst (thMatch dev_addr) s

/-- `threat_analyze_device`: static classification.  NULL → SAFE; HID mouse
(protocol 2) → SAFE; other HID (keyboard = 1, unknown = 0) →
POTENTIALLY_UNSAFE; non-HID → SAFE. -/
def threat_analyze_device : Option usb_device_info_t → Nat
  | none => THREAT_SAFE
  | some info =>
      if info.is_hid then
        if info.hid_protocol == 2 then THREAT_SAFE else THREAT_POTENTIALLY_UNSAFE
      else THREAT_SAFE

/-- `threat_get_current_level`: stored level, or SAFE if the address is not
tracked. -/
def threat_get_current_level (s : List device_threat_t) (dev_addr : Nat) : Nat :=
  match threat_get_device_status s dev_addr with
  | some t => t.threat_level
  | none => THREAT_SAFE

/-- The record written by `threat_add_device` into a free slot: memset to
zero, copy the device info, run static classification, set `is_active`. -/
def newThreatRecord (info : usb_device_info_t) : device_threat_t :=
  { zeroThreat with device := info,
                    threat_level := threat_analyze_device (some info),
                    is_active := true }

/-- `threat_add_device`: NULL → no effect; otherwise claim the first free
(`!device.is_mounted`) slot; if the table is full, log an error and return
with no effect. -/
def threat_add_device (s : List device_threat_t) :
    Option usb_device_info_t → List device_threat_t
  | none => s
  | some info =>
      updateFirst (fun t => !t.device.is_mounted) (fun _ => newThreatRecord info) s

/-- In-place body of `threat_update_device_info` on the found record: copy
the latest device snapshot, then re-classify and escalate only if the new
level is strictly greater. -/
def updInfoStep (info : usb_device_info_t) (t : device_threat_t) : device_threat_t :=
  let t := { t with device := info }
  let new_level := threat_analyze_device (some info)
  if new_level > t.threat_level then { t with threat_level := new_level } else t

/-- `threat_update_device_info`: NULL → no effect; if a mounted record with
the same address exists, update it in place (`updInfoStep`); otherwise fall
through to `threat_add_device`. -/
def threat_update_device_info (s : List device_threat_t) :
    Option usb_device_info_t → List device_threat_t
  | none => s
  | some info =>
      if (findFirst (thMatch info.dev_addr) s).isSome then
        updateFirst (thMatch info.dev_addr) (updInfoStep info) s
      else
        threat_add_device s (some info)

/-- In-place body of `threat_update_hid_activity` on the found record.
`windowed_rate` is the value read from `hid_get_keystroke_rate`; `live` is
the `usb_get_device_info(dev_addr)` registry row consulted when the stored
snapshot is not yet marked HID. -/
def hidActStep (windowed_rate : Nat) (live : Option usb_device_info_t)
    (t : device_threat_t) : device_threat_t :=
  let t := { t with hid_report_count := t.hid_report_count + 1,
                    hid_reports_per_sec := windowed_rate }
  let t :=
    if !t.device.is_hid then
      match live with
      | some d =>
          if d.is_hid then
            let t := { t with device := { t.device with is_hid := true } }
            if t.threat_level < THREAT_POTENTIALLY_UNSAFE then
              { t with threat_level := THREAT_POTENTIALLY_UNSAFE }
            else t
          else t
      | none => t
    else t
  if windowed_rate > HID_KEYSTROKE_THRESHOLD_HZ then
    { t with threat_level := THREAT_MALICIOUS }
  else t

/-- `threat_update_hid_activity`: a no-op when `threat_get_device_status`
returns NULL, otherwise `hidActStep` in place with the windowed rate read
from the Rate Monitor state `hs`. -/
def threat_update_hid_activity (s : List device_threat_t) (dev_addr : Nat)
    (hs : List hid_monitor_t) (live : Option usb_device_info_t) :
    List device_threat_t :=
  updateFirst (thMatch dev_addr) (hidActStep (hid_get_keystroke_rate hs dev_addr) live) s

/-- `threat_get_device_at_index`: the `index`-th mounted record, counting
in array order. -/
def threat_get_device_at_index (s : List device_threat_t) (index : Nat) :
    Option device_threat_t :=
  match s with
  | [] => none
  | t :: rest =>
      if t.device.is_mounted then
        if index = 0 then some t else threat_get_device_at_index rest (index - 1)
      else threat_get_device_at_index rest index

/-- `threat_is_hid_spammy`: record exists and is at THREAT_MALICIOUS. -/
def threat_is_hid_spammy (s : List device_threat_t) (dev_addr : Nat) : Bool :=
  match threat_get_device_status s dev_addr with
  | some t => t.threat_level == THREAT_MALICIOUS
  | none => false

/-- `threat_remove_device`: memset the first record whose `device.dev_addr`
matches (mounted or not — the C loop checks only the address). -/
def threat_remove_device (s : List device_threat_t) (dev_addr : Nat) :
    List device_threat_t :=
  updateFirst (fun t => t.device.dev_addr == dev_addr) (fun _ => zeroThreat) s

/-! ## TinyUSB callbacks (usb_host.c, unnamed part_012) -/

/-- `tuh_hid_mount_cb` acting on the registry row `dev`
(= `_find_device(dev_addr)`), the threat table and the monitor table.
When the row exists it is marked HID (and its class defaulted to 0x03) and
re-pushed through `threat_update_device_info`; then — unconditionally, with
the logged `itf_protocol` playing no part in the decision —
`hid_monitor_add_device` is called.  Returns (updated row, threat table,
monitor table). -/
def tuh_hid_mount_cb (dev : Option usb_device_info_t)
    (ts : List device_threat_t) (hs : List hid_monitor_t)
    (dev_addr itf_protocol now : Nat) :
    Option usb_device_info_t × List device_threat_t × List hid_monitor_t :=
  let _ := itf_protocol
  match dev with
  | some d =>
      let d := { d with is_hid := true,
                        usb_class := if d.usb_class == 0 then 3 else d.usb_class }
      (some d, threat_update_device_info ts (some d),
       hid_monitor_add_device hs dev_addr now)
  | none => (none, ts, hid_monitor_add_device hs dev_addr now)

/-- `tuh_hid_report_received_cb`: feed the report to `hid_monitor_report`,
then to `threat_update_hid_activity` (which reads the just-updated windowed
rate); `dev` is the registry row consulted via `usb_get_device_info`. -/
def tuh_hid_report_received_cb (dev : Option usb_device_info_t)
    (ts : List device_threat_t) (hs : List hid_monitor_t) (dev_addr now : Nat) :
    List device_threat_t × List hid_monitor_t :=
  let hs := hid_monitor_report hs dev_addr now
  let ts := threat_update_hid_activity ts dev_addr hs dev
  (ts, hs)

/-! ## Event system for lifetime traces -/

/-- One threat-record update while a device stays connected: either a
`threat_update_device_info` push with some registry snapshot, or a
`threat_update_hid_activity` call with whatever Rate Monitor state and live
registry row were current. -/
inductive ThreatEvent where
  | updInfo : Option usb_device_info_t → ThreatEvent
  | updHid : Nat → List hid_monitor_t → Option usb_device_info_t → ThreatEvent
deriving DecidableEq

/-- Apply one `ThreatEvent` to the threat table. -/
def threatStep (s : List device_threat_t) : ThreatEvent → List device_threat_t
  | .updInfo info => threat_update_device_info s info
  | .updHid dev_addr hs live => threat_update_hid_activity s dev_addr hs live

/-- Run a sequence of `ThreatEvent`s. -/
def runThreat (s : List device_threat_t) (es : List ThreatEvent) :
    List device_threat_t :=
  es.foldl threatStep s

/-- A trace event is compatible with address `a` staying connected: any
`updInfo` snapshot that targets `a` still carries `is_mounted = true` (the
registry row of a connected device).  Other events are unrestricted. -/
def eventOk (a : Nat) : ThreatEvent → Bool
  | .updInfo none => true
  | .updInfo (some info) => !(info.dev_addr == a) || info.is_mounted
  | .updHid _ _ _ => true

/-- Every stored threat level is a legal `threat_level_e` value (≤ 2). -/
def levelsOK (s : List device_threat_t) : Prop :=
  ∀ t ∈ s, t.threat_level ≤ THREAT_MALICIOUS

instance (s : List device_threat_t) : Decidable (levelsOK s) := by
  unfold levelsOK; infer_instance

/-! ## Concrete fixtures and trace-summary functions -/

/-- A connected keyboard-role HID device at address 1 (registry row as it
stands after enumeration and HID mount). -/
def kbInfo : usb_device_info_t :=
  { dev_addr := 1, usb_class := 3, is_hid := true, hid_protocol := 1, is_mounted := true }

/-- A connected mouse-role HID device at address 1. -/
def mouseInfo : usb_device_info_t :=
  { dev_addr := 1, usb_class := 3, is_hid := true, hid_protocol := 2, is_mounted := true }

/-- Deliver a sequence of HID reports for one address through the full
`tuh_hid_report_received_cb` pipeline, one report per listed timestamp. -/
def runReports (dev : Option usb_device_info_t)
    (p : List device_threat_t × List hid_monitor_t) (dev_addr : Nat)
    (times : List Nat) : List device_threat_t × List hid_monitor_t :=
  times.foldl (fun p t => tuh_hid_report_received_cb dev p.1 p.2 dev_addr t) p

/-- Deliver a sequence of reports to the Rate Monitor alone, one
`hid_monitor_report` call per listed timestamp. -/
def runMonitor (s : List hid_monitor_t) (dev_addr : Nat) (times : List Nat) :
    List hid_monitor_t :=
  times.foldl (fun s t => hid_monitor_report s dev_addr t) s

/-- The rate a `hid_monitor_report` call at time `now` would compute if it
closes the window of slot `m` (`none` when the window does not close).  The
`+ 1` accounts for the report being recorded by that same call. -/
def closedRate (now : Nat) (m : hid_monitor_t) : Option Nat :=
  if now - m.last_window_start_ms ≥ KEYSTROKE_RATE_WINDOW_MS then
    some ((m.reports_this_second + 1) * 1000 / (now - m.last_window_start_ms))
  else none

/-- All window rates closed for `dev_addr` along a sequence of
`hid_monitor_report` calls at the listed timestamps, in order. -/
def closedRates (s : List hid_monitor_t) (dev_addr : Nat) : List Nat → List Nat
  | [] => []
  | t :: ts =>
      (match hid_get_monitor_stats s dev_addr with
       | some m => (closedRate t m).toList
       | none => []) ++ closedRates (hid_monitor_report s dev_addr t) dev_addr ts

/-- `peak_rate_hz` of the monitoring slot for an address (0 when absent). -/
def peakOf (s : List hid_monitor_t) (dev_addr : Nat) : Nat :=
  match hid_get_monitor_stats s dev_addr with
  | some m => m.peak_rate_hz
  | none => 0

/-- Monitor table after 200 reports delivered evenly (one every 5 ms, ending
exactly at the 1000 ms window boundary) to a device monitored from t = 0. -/
def c4Monitor200 : List hid_monitor_t :=
  runMonitor (hid_monitor_add_device initMonitors 1 0) 1
    ((List.range 200).map fun k => 5 * (k + 1))

/-- Keyboard at address 1: record added, monitoring from t = 0, then 10
reports delivered evenly (one every 100 ms, ending at the window boundary)
through the full report pipeline. -/
def c4KeyboardRun : List device_threat_t × List hid_monitor_t :=
  runReports (some kbInfo)
    (threat_add_device initThreats (some kbInfo),
     hid_monitor_add_device initMonitors 1 0) 1
    ((List.range 10).map fun k => 100 * (k + 1))

/-- Keyboard at address 1: 50 reports at t = 0 and a 51st at t = 1000, so the
window closing at t = 1000 contains 51 reports. -/
def c5KeyboardRun51 : List device_threat_t × List hid_monitor_t :=
  runReports (some kbInfo)
    (threat_add_device initThreats (some kbInfo),
     hid_monitor_add_device initMonitors 1 0) 1
    (List.replicate 50 0 ++ [1000])

/-- Keyboard at address 1: 49 reports at t = 0 and a 50th at t = 1000, so the
window closing at t = 1000 contains exactly 50 reports. -/
def c5KeyboardRun50 : List device_threat_t × List hid_monitor_t :=
  runReports (some kbInfo)
    (threat_add_device initThreats (some kbInfo),
     hid_monitor_add_device initMonitors 1 0) 1
    (List.replicate 49 0 ++ [1000])

/-- Mouse at address 1: enumerated (`threat_add_device`), then its HID
interface mounts with `itf_protocol = 2` at t = 0 (`tuh_hid_mount_cb`). -/
def c2MouseMount :
    Option usb_device_info_t × List device_threat_t × List hid_monitor_t :=
  tuh_hid_mount_cb (some mouseInfo) (threat_add_device initThreats (some mouseInfo))
    initMonitors 1 2 0

/-- The mounted mouse then sends 50 reports at t = 0 and a 51st at t = 1000
(51 reports in one 1000 ms window — an ordinary rate for a real mouse). -/
def c2MouseRun : List device_threat_t × List hid_monitor_t :=
  runReports c2MouseMount.1 (c2MouseMount.2.1, c2MouseMount.2.2) 1
    (List.replicate 50 0 ++ [1000])

/-- A monitor table with every slot in use (four devices registered). -/
def fullMonitors : List hid_monitor_t :=
  hid_monitor_add_device (hid_monitor_add_device (hid_monitor_add_device
    (hid_monitor_add_device initMonitors 1 0) 2 0) 3 0) 4 0

/-! ## Generic lemmas about the slot-table helpers -/

theorem findFirst_mem {p : α → Bool} {l : List α} {x : α}
    (h : findFirst p l = some x) : x ∈ l ∧ p x = true := by
  induction l with
  | nil => simp [findFirst] at h
  | cons y ys ih =>
      by_cases hy : p y = true
      · simp [findFirst, hy] at h
        subst h; exact ⟨List.mem_cons_self _ _, hy⟩
      · simp [findFirst, hy] at h
        rcases ih h with ⟨hm, hp⟩
        exact ⟨List.mem_cons_of_mem _ hm, hp⟩

theorem findFirst_eq_none {p : α → Bool} {l : List α}
    (h : ∀ x ∈ l, p x = false) : findFirst p l = none := by
  induction l with
  | nil => rfl
  | cons y ys ih =>
      have hy := h y (List.mem_cons_self _ _)
      simp [findFirst, hy]
      exact ih fun x hx => h x (List.mem_cons_of_mem _ hx)

theorem findFirst_updateFirst_same {p : α → Bool} {f : α → α} (l : List α)
    (hp : ∀ x, p x = true → p (f x) = true) :
    findFirst p (updateFirst p f l) = Option.map f (findFirst p l) := by
  induction l with
  | nil => rfl
  | cons y ys ih =>
      by_cases hy : p y = true
      · simp [updateFirst, findFirst, hy, hp y hy]
      · simp [updateFirst, findFirst, hy, ih]

theorem findFirst_updateFirst_frame {p q : α → Bool} {f : α → α} (l : List α)
    (h1 : ∀ x, p x = true → q x = false)
    (h2 : ∀ x, p x = true → q (f x) = false) :
    findFirst q (updateFirst p f l) = findFirst q l := by
  induction l with
  | nil => rfl
  | cons y ys ih =>
      by_cases hy : p y = true
      · simp [updateFirst, findFirst, hy, h1 y hy, h2 y hy]
      · simp [updateFirst, findFirst, hy, ih]

theorem mem_updateFirst {p : α → Bool} {f : α → α} {l : List α} {x : α}
    (h : x ∈ updateFirst p f l) : x ∈ l ∨ ∃ y ∈ l, p y = true ∧ x = f y := by
  induction l with
  | nil => simp [updateFirst] at h
  | cons z zs ih =>
      by_cases hz : p z = true
      · simp [updateFirst, hz] at h
        rcases h with h | h
        · exact Or.inr ⟨z, List.mem_cons_self _ _, hz, h⟩
        · exact Or.inl (List.mem_cons_of_mem _ h)
      · simp [updateFirst, hz] at h
        rcases h with h | h
        · exact Or.inl (by simp [h])
        · rcases ih h with h | ⟨y, hy, hpy, hxy⟩
          · exact Or.inl (List.mem_cons_of_mem _ h)
          · exact Or.inr ⟨y, List.mem_cons_of_mem _ hy, hpy, hxy⟩

theorem updateFirst_of_none {p : α → Bool} {f : α → α} {l : List α}
    (h : ∀ x ∈ l, p x = false) : updateFirst p f l = l := by
  induction l with
  | nil => rfl
  | cons y ys ih =>
      have hy := h y (List.mem_cons_self _ _)
      simp [updateFirst, hy]
      exact ih fun x hx => h x (List.mem_cons_of_mem _ hx)

/-! ## Threat Classifier lemmas -/

theorem threat_analyze_device_le (o : Option usb_device_info_t) :
    threat_analyze_device o ≤ THREAT_POTENTIALLY_UNSAFE := by
  cases o with
  | none => simp [threat_analyze_device, THREAT_SAFE, THREAT_POTENTIALLY_UNSAFE]
  | some info =>
      simp only [threat_analyze_device]
      split_ifs <;> simp [THREAT_SAFE, THREAT_POTENTIALLY_UNSAFE]

theorem updInfoStep_device (info : usb_device_info_t) (t : device_threat_t) :
    (updInfoStep info t).device = info := by
  simp only [updInfoStep]
  split_ifs <;> rfl

theorem updInfoStep_level_ge (info : usb_device_info_t) (t : device_threat_t) :
    t.threat_level ≤ (updInfoStep info t).threat_level := by
  simp only [updInfoStep]
  split_ifs with h
  · exact Nat.le_of_lt h
  · exact Nat.le_refl _

theorem updInfoStep_level_le (info : usb_device_info_t) (t : device_threat_t)
    (h : t.threat_level ≤ THREAT_MALICIOUS) :
    (updInfoStep info t).threat_level ≤ THREAT_MALICIOUS := by
  simp only [updInfoStep]
  split_ifs with hgt
  · exact le_trans (threat_analyze_device_le (some info))
      (by simp [THREAT_POTENTIALLY_UNSAFE, THREAT_MALICIOUS])
  · exact h

theorem newThreatRecord_level_le (info : usb_device_info_t) :
    (newThreatRecord info).threat_level ≤ THREAT_MALICIOUS := by
  simp only [newThreatRecord]
  exact le_trans (threat_analyze_device_le (some info))
    (by simp [THREAT_POTENTIALLY_UNSAFE, THREAT_MALICIOUS])

theorem hidActStep_match (a r : Nat) (live : Option usb_device_info_t)
    (t : device_threat_t) : thMatch a (hidActStep r live t) = thMatch a t := by
  simp only [hidActStep]
  cases live <;> (repeat' split) <;> simp [thMatch]

theorem hidActStep_level_ge (r : Nat) (live : Option usb_device_info_t)
    (t : device_threat_t) (h : t.threat_level ≤ THREAT_MALICIOUS) :
    t.threat_level ≤ (hidActStep r live t).threat_level := by
  simp only [hidActStep, THREAT_MALICIOUS, THREAT_POTENTIALLY_UNSAFE] at *
  cases live <;> (repeat' split) <;> simp <;> omega

theorem hidActStep_level_le (r : Nat) (live : Option usb_device_info_t)
    (t : device_threat_t) (h : t.threat_level ≤ THREAT_MALICIOUS) :
    (hidActStep r live t).threat_level ≤ THREAT_MALICIOUS := by
  simp only [hidActStep, THREAT_MALICIOUS, THREAT_POTENTIALLY_UNSAFE] at *
  cases live <;> (repeat' split) <;> simp <;> omega

/-! ## Invariant preservation and monotonicity -/

theorem levelsOK_updateFirst {p : device_threat_t → Bool}
    {f : device_threat_t → device_threat_t} {s : List device_threat_t}
    (h : levelsOK s)
    (hf : ∀ t ∈ s, p t = true → (f t).threat_level ≤ THREAT_MALICIOUS) :
    levelsOK (updateFirst p f s) := by
  intro x hx
  rcases mem_updateFirst hx with hm | ⟨y, hy, hpy, rfl⟩
  · exact h x hm
  · exact hf y hy hpy

theorem levelsOK_add (s : List device_threat_t) (o : Option usb_device_info_t)
    (h : levelsOK s) : levelsOK (threat_add_device s o) := by
  cases o with
  | none => exact h
  | some info =>
      exact levelsOK_updateFirst h fun t _ _ => newThreatRecord_level_le info

theorem levelsOK_threatStep (s : List device_threat_t) (e : ThreatEvent)
    (h : levelsOK s) : levelsOK (threatStep s e) := by
  cases e with
  | updInfo o =>
      cases o with
      | none => exact h
      | some info =>
          simp only [threatStep, threat_update_device_info]
          split_ifs with hfound
          · exact levelsOK_updateFirst h fun t ht _ => updInfoStep_level_le info t (h t ht)
          · exact levelsOK_add s (some info) h
  | updHid a hs live =>
      exact levelsOK_updateFirst h fun t ht _ =>
        hidActStep_level_le _ live t (h t ht)

theorem levelsOK_runThreat (s : List device_threat_t) (es : List ThreatEvent)
    (h : levelsOK s) : levelsOK (runThreat s es) := by
  induction es generalizing s with
  | nil => exact h
  | cons e es ih => exact ih _ (levelsOK_threatStep s e h)

theorem thMatch_false_of_other {a b : Nat} (hne : b ≠ a) (x : device_threat_t)
    (hx : x.device.dev_addr = b) : thMatch a x = false := by
  simp [thMatch, hx, hne]

theorem level_mono_threatStep (s : List device_threat_t) (a : Nat) (e : ThreatEvent)
    (hOK : levelsOK s) (he : eventOk a e = true) :
    threat_get_current_level s a ≤ threat_get_current_level (threatStep s e) a := by
  cases e with
  | updInfo o =>
      cases o with
      | none => exact Nat.le_refl _
      | some info =>
          simp only [threatStep, threat_update_device_info]
          split_ifs with hfound
          · by_cases ha : info.dev_addr = a
            · subst ha
              have hmt : info.is_mounted = true := by
                simpa [eventOk] using he
              have hpres : ∀ x, thMatch info.dev_addr x = true →
                  thMatch info.dev_addr (updInfoStep info x) = true := by
                intro x _
                simp [thMatch, updInfoStep_device, hmt]
              have hsame := findFirst_updateFirst_same (f := updInfoStep info) s hpres
              simp only [threat_get_current_level, threat_get_device_status, hsame]
              cases hff : findFirst (thMatch info.dev_addr) s with
              | none => simp
              | some t => simpa using updInfoStep_level_ge info t
            · have h1 : ∀ x, thMatch info.dev_addr x = true → thMatch a x = false := by
                intro x hx
                simp only [thMatch, Bool.and_eq_true, beq_iff_eq] at hx
                exact thMatch_false_of_other ha x hx.1
              have h2 : ∀ x, thMatch info.dev_addr x = true →
                  thMatch a (updInfoStep info x) = false := by
                intro x _
                exact thMatch_false_of_other ha _ (by rw [updInfoStep_device])
              have hfr := findFirst_updateFirst_frame (f := updInfoStep info) s h1 h2
              simp only [threat_get_current_level, threat_get_device_status, hfr]
              exact Nat.le_refl _
          · by_cases ha : info.dev_addr = a
            · subst ha
              have : findFirst (thMatch info.dev_addr) s = none := by
                cases hff : findFirst (thMatch info.dev_addr) s with
                | none => rfl
                | some t => rw [hff] at hfound; simp at hfound
              simp only [threat_get_current_level, threat_get_device_status, this]
              exact Nat.zero_le _
            · have h1 : ∀ x : device_threat_t, (!x.device.is_mounted) = true →
                  thMatch a x = false := by
                intro x hx
                simp only [Bool.not_eq_true'] at hx
                simp [thMatch, hx]
              have h2 : ∀ x : device_threat_t, (!x.device.is_mounted) = true →
                  thMatch a (newThreatRecord info) = false := by
                intro x _
                exact thMatch_false_of_other ha _ (by rfl)
              simp only [threat_add_device]
              have hfr := findFirst_updateFirst_frame
                (f := fun _ => newThreatRecord info) s h1 (fun x hx => h2 x hx)
              simp only [threat_get_current_level, threat_get_device_status, hfr]
              exact Nat.le_refl _
  | updHid b hs live =>
      simp only [threatStep, threat_update_hid_activity]
      by_cases hb : b = a
      · subst hb
        have hpres : ∀ x, thMatch b x = true →
            thMatch b (hidActStep (hid_get_keystroke_rate hs b) live x) = true := by
          intro x hx
          rw [hidActStep_match]; exact hx
        have hsame := findFirst_updateFirst_same
          (f := hidActStep (hid_get_keystroke_rate hs b) live) s hpres
        simp only [threat_get_current_level, threat_get_device_status, hsame]
        cases hff : findFirst (thMatch b) s with
        | none => simp
        | some t =>
            have ht := (findFirst_mem hff).1
            simpa using hidActStep_level_ge _ live t (hOK t ht)
      · have h1 : ∀ x, thMatch b x = true → thMatch a x = false := by
          intro x hx
          simp only [thMatch, Bool.and_eq_true, beq_iff_eq] at hx
          exact thMatch_false_of_other hb x hx.1
        have h2 : ∀ x, thMatch b x = true →
            thMatch a (hidActStep (hid_get_keystroke_rate hs b) live x) = false := by
          intro x hx
          rw [hidActStep_match]; exact h1 x hx
        have hfr := findFirst_updateFirst_frame
          (f := hidActStep (hid_get_keystroke_rate hs b) live) s h1 h2
        simp only [threat_get_current_level, threat_get_device_status, hfr]
        exact Nat.le_refl _

theorem level_mono_runThreat (s : List device_threat_t) (a : Nat)
    (es : List ThreatEvent) (hOK : levelsOK s)
    (he : ∀ e ∈ es, eventOk a e = true) :
    threat_get_current_level s a ≤ threat_get_current_level (runThreat s es) a := by
  induction es generalizing s with
  | nil => exact Nat.le_refl _
  | cons e es ih =>
      refine le_trans (level_mono_threatStep s a e hOK (he e (List.mem_cons_self _ _))) ?_
      exact ih _ (levelsOK_threatStep s e hOK) fun x hx => he x (List.mem_cons_of_mem _ hx)

/-! ## Claim C1 -/

/-- C1: for every device address, across every sequence of threat-record
updates applied while the device remains connected (`threat_add_device`
creating the record, then any interleaving of `threat_update_device_info`
and `threat_update_hid_activity`, with no `threat_remove_device` for that
address in between), the stored threat level — and hence the sequence of
values returned by `threat_get_current_level` — is non-decreasing under
SAFE(0) < POTENTIALLY_UNSAFE(1) < MALICIOUS(2): comparing the level at any
prefix of the update sequence with the level at any extension of that
prefix, the earlier value never exceeds the later one.  `levelsOK` (all
stored levels are legal enum values) holds of the freshly initialised table
and is preserved by every operation; `eventOk` states that update snapshots
for the observed address still carry `is_mounted = true`, i.e. the device
remains connected. -/
theorem C1_threat_level_monotone (s0 : List device_threat_t)
    (info : Option usb_device_info_t) (a : Nat) (es1 es2 : List ThreatEvent)
    (h0 : levelsOK s0)
    (hok : ∀ e ∈ es1 ++ es2, eventOk a e = true) :
    threat_get_current_level (runThreat (threat_add_device s0 info) es1) a ≤
      threat_get_current_level (runThreat (threat_add_device s0 info) (es1 ++ es2)) a := by
  have hOK : levelsOK (runThreat (threat_add_device s0 info) es1) :=
    levelsOK_runThreat _ _ (levelsOK_add s0 info h0)
  simp only [runThreat, List.foldl_append]
  exact level_mono_runThreat _ a es2 hOK fun e hx =>
    hok e (List.mem_append_right _ hx)

/-- Witness for C1: a keyboard record is created at address 1; an
`updInfo` re-push and a report-driven `updHid` step never lower the
observed level. -/
theorem C1_witness :
    threat_get_current_level (runThreat (threat_add_device initThreats (some kbInfo))
      [ThreatEvent.updInfo (some kbInfo)]) 1 ≤
    threat_get_current_level (runThreat (threat_add_device initThreats (some kbInfo))
      ([ThreatEvent.updInfo (some kbInfo)] ++
        [ThreatEvent.updHid 1 initMonitors (some kbInfo)])) 1 :=
  C1_threat_level_monotone initThreats (some kbInfo) 1
    [ThreatEvent.updInfo (some kbInfo)]
    [ThreatEvent.updHid 1 initMonitors (some kbInfo)]
    (by decide) (by decide)

/-! ## Rate Monitor lemmas -/

theorem reportStep_match (a now : Nat) (m : hid_monitor_t) :
    monMatch a (reportStep now m) = monMatch a m := by
  simp only [reportStep, monMatch]
  (repeat' split) <;> rfl

theorem stats_after_report (s : List hid_monitor_t) (a now : Nat) :
    hid_get_monitor_stats (hid_monitor_report s a now) a =
      Option.map (reportStep now) (hid_get_monitor_stats s a) := by
  apply findFirst_updateFirst_same
  intro x hx
  rw [reportStep_match]; exact hx

theorem stats_after_report_other (s : List hid_monitor_t) {a b : Nat} (now : Nat)
    (h : b ≠ a) :
    hid_get_monitor_stats (hid_monitor_report s b now) a =
      hid_get_monitor_stats s a := by
  apply findFirst_updateFirst_frame
  · intro x hx
    simp only [monMatch, Bool.and_eq_true, beq_iff_eq] at hx
    simp [monMatch, hx.1, h]
  · intro x hx
    rw [reportStep_match]
    simp only [monMatch, Bool.and_eq_true, beq_iff_eq] at hx
    simp [monMatch, hx.1, h]

theorem reportStep_close (now : Nat) (m : hid_monitor_t)
    (h : now - m.last_window_start_ms ≥ KEYSTROKE_RATE_WINDOW_MS) :
    reportStep now m =
      { m with total_reports := m.total_reports + 1,
               reports_this_second := 0,
               last_window_start_ms := now,
               current_rate_hz :=
                 (m.reports_this_second + 1) * 1000 / (now - m.last_window_start_ms),
               peak_rate_hz :=
                 if (m.reports_this_second + 1) * 1000 / (now - m.last_window_start_ms)
                     > m.peak_rate_hz
                 then (m.reports_this_second + 1) * 1000 / (now - m.last_window_start_ms)
                 else m.peak_rate_hz } := by
  simp only [reportStep]
  split
  · split <;> (rename_i h1 h2; simp only [h2, if_true])
  · rename_i h1
    exact absurd h h1

theorem reportStep_open (now : Nat) (m : hid_monitor_t)
    (h : now - m.last_window_start_ms < KEYSTROKE_RATE_WINDOW_MS) :
    reportStep now m =
      { m with total_reports := m.total_reports + 1,
               reports_this_second := m.reports_this_second + 1 } := by
  simp only [reportStep]
  split
  · rename_i h1
    omega
  · rfl

/-! ## Claim C8 -/

/-- C8: `hid_monitor_report` never divides by zero: whenever the elapsed
time since window start is below the 1000 ms window length — in particular
when it is zero — the close-window computation is skipped for that call;
the slot after the call differs from the slot before only in its two
incremented counters, so `current_rate_hz` (and the window start, i.e. the
window is treated as not yet closed) is left unchanged and the division
`reports * 1000 / elapsed` is never evaluated with a zero divisor (it is
only reachable under `elapsed ≥ 1000`). -/
theorem C8_no_division_by_zero (s : List hid_monitor_t) (a now : Nat)
    (m : hid_monitor_t) (hm : hid_get_monitor_stats s a = some m)
    (hmono : m.last_window_start_ms ≤ now)
    (helapsed : now - m.last_window_start_ms < KEYSTROKE_RATE_WINDOW_MS) :
    hid_get_monitor_stats (hid_monitor_report s a now) a =
      some { m with total_reports := m.total_reports + 1,
                    reports_this_second := m.reports_this_second + 1 } := by
  rw [stats_after_report, hm, Option.map_some']
  rw [reportStep_open now m helapsed]

/-- Witness for C8: a monitored slot one report into a window, queried again
at the same millisecond (elapsed time zero). -/
theorem C8_witness :
    hid_get_monitor_stats
      (hid_monitor_report (hid_monitor_add_device initMonitors 1 5) 1 5) 1 =
      some { freshMonitor 1 5 with total_reports := 1, reports_this_second := 1 } :=
  C8_no_division_by_zero _ 1 5 (freshMonitor 1 5) (by decide) (by decide) (by decide)

/-! ## Claim C9 -/

/-- C9: in `hid_monitor_report` the lifetime and window counters are
incremented before the window-close check, so the report whose arrival
closes a window is included in that window's count — the computed rate is
`(reports_this_second + 1) * 1000 / elapsed` where `reports_this_second`
is the count before the call — and the new window starts with a window
count of 0 (the triggering report is not carried over). -/
theorem C9_closing_report_counted (s : List hid_monitor_t) (a now : Nat)
    (m : hid_monitor_t) (hm : hid_get_monitor_stats s a = some m)
    (hcl : now - m.last_window_start_ms ≥ KEYSTROKE_RATE_WINDOW_MS) :
    (hid_get_monitor_stats (hid_monitor_report s a now) a).map
        hid_monitor_t.current_rate_hz =
      some ((m.reports_this_second + 1) * 1000 / (now - m.last_window_start_ms)) ∧
    (hid_get_monitor_stats (hid_monitor_report s a now) a).map
        hid_monitor_t.reports_this_second = some 0 ∧
    (hid_get_monitor_stats (hid_monitor_report s a now) a).map
        hid_monitor_t.total_reports = some (m.total_reports + 1) := by
  rw [stats_after_report, hm, Option.map_some', reportStep_close now m hcl]
  exact ⟨rfl, rfl, rfl⟩

/-- Witness for C9: a slot with 4 reports already in the window; a fifth
report at the 1000 ms mark closes the window with rate 5, and the new
window count is 0. -/
theorem C9_witness :
    (hid_get_monitor_stats
        (hid_monitor_report (runMonitor (hid_monitor_add_device initMonitors 1 0) 1
          [10, 20, 30, 40]) 1 1000) 1).map hid_monitor_t.current_rate_hz =
      some 5 := by
  have h := C9_closing_report_counted
    (runMonitor (hid_monitor_add_device initMonitors 1 0) 1 [10, 20, 30, 40]) 1 1000
    { freshMonitor 1 0 with total_reports := 4, reports_this_second := 4 }
    (by decide) (by decide)
  exact h.1

/-! ## Claim C4 -/

/-- C4: when `hid_monitor_report` is called for a monitored address and the
elapsed time since window start has reached the 1000 ms window length, it
closes the window: the new `current_rate_hz` equals window_count * 1000 /
elapsed (integer division, where window_count counts every report of the
window including the one recorded by this very call), `peak_rate_hz` is
updated if the new rate exceeds it, the window count is reset to 0 and the
window start to now.  In particular 200 reports delivered evenly across
1000 ms yield `current_rate` 200 after the close, and 10 reports over the
same window yield rate 10 with the keyboard's level remaining CAUTION. -/
theorem C4_window_close_behaviour :
    (∀ (s : List hid_monitor_t) (a now : Nat) (m : hid_monitor_t),
        hid_get_monitor_stats s a = some m →
        now - m.last_window_start_ms ≥ KEYSTROKE_RATE_WINDOW_MS →
        hid_get_monitor_stats (hid_monitor_report s a now) a =
          some { m with
                 total_reports := m.total_reports + 1,
                 reports_this_second := 0,
                 last_window_start_ms := now,
                 current_rate_hz :=
                   (m.reports_this_second + 1) * 1000 / (now - m.last_window_start_ms),
                 peak_rate_hz :=
                   if (m.reports_this_second + 1) * 1000 / (now - m.last_window_start_ms)
                       > m.peak_rate_hz
                   then (m.reports_this_second + 1) * 1000 / (now - m.last_window_start_ms)
                   else m.peak_rate_hz }) ∧
    hid_get_keystroke_rate c4Monitor200 1 = 200 ∧
    hid_get_keystroke_rate c4KeyboardRun.2 1 = 10 ∧
    threat_get_current_level c4KeyboardRun.1 1 = THREAT_POTENTIALLY_UNSAFE := by
  refine ⟨?_, by decide, by decide, by decide⟩
  intro s a now m hm hcl
  rw [stats_after_report, hm, Option.map_some', reportStep_close now m hcl]

/-- Witness for C4: the freshly monitored slot receives its only report at
the 1000 ms boundary; the closed window has rate 1. -/
theorem C4_witness :
    (hid_get_monitor_stats
        (hid_monitor_report (hid_monitor_add_device initMonitors 1 0) 1 1000) 1).map
      hid_monitor_t.current_rate_hz = some 1 := by
  have h := C4_window_close_behaviour.1 (hid_monitor_add_device initMonitors 1 0)
    1 1000 (freshMonitor 1 0) (by decide) (by decide)
  rw [h]
  rfl

/-! ## Claim C5 -/

theorem hidActStep_no_escalation (r : Nat) (live : Option usb_device_info_t)
    (t : device_threat_t) (hr : ¬ r > HID_KEYSTROKE_THRESHOLD_HZ)
    (h : t.threat_level ≠ THREAT_MALICIOUS) :
    (hidActStep r live t).threat_level ≠ THREAT_MALICIOUS := by
  simp only [hidActStep, THREAT_MALICIOUS, THREAT_POTENTIALLY_UNSAFE,
    HID_KEYSTROKE_THRESHOLD_HZ] at *
  cases live <;> (repeat' split) <;> simp_all

/-- C5: dynamic escalation compares the closed-window rate against the
50 reports/second threshold with strictly-greater-than: with a windowed
rate of exactly 50, `threat_update_hid_activity` never moves a device to
MALICIOUS (a device not already at MALICIOUS stays below it), while 51
reports received within one exactly-1000 ms window give a closed rate of
51 and drive the device's level to MALICIOUS after that window closes;
with exactly 50 reports in the window the keyboard stays at CAUTION. -/
theorem C5_threshold_strictly_greater :
    (∀ (ts : List device_threat_t) (a : Nat) (hs : List hid_monitor_t)
        (live : Option usb_device_info_t),
        hid_get_keystroke_rate hs a = 50 →
        threat_get_current_level ts a ≠ THREAT_MALICIOUS →
        threat_get_current_level (threat_update_hid_activity ts a hs live) a ≠
          THREAT_MALICIOUS) ∧
    threat_get_current_level c5KeyboardRun51.1 1 = THREAT_MALICIOUS ∧
    hid_get_keystroke_rate c5KeyboardRun51.2 1 = 51 ∧
    threat_get_current_level c5KeyboardRun50.1 1 = THREAT_POTENTIALLY_UNSAFE ∧
    hid_get_keystroke_rate c5KeyboardRun50.2 1 = 50 := by
  refine ⟨?_, by decide, by decide, by decide, by decide⟩
  intro ts a hs live hrate hlvl
  simp only [threat_update_hid_activity, hrate]
  have hpres : ∀ x, thMatch a x = true → thMatch a (hidActStep 50 live x) = true := by
    intro x hx
    rw [hidActStep_match]; exact hx
  have hsame := findFirst_updateFirst_same (f := hidActStep 50 live) (l := ts) hpres
  simp only [threat_get_current_level, threat_get_device_status] at *
  rw [hsame]
  cases hff : findFirst (thMatch a) ts with
  | none => simp [THREAT_SAFE, THREAT_MALICIOUS]
  | some t =>
      rw [hff] at hlvl
      simpa using hidActStep_no_escalation 50 live t (by decide) hlvl

/-- Witness for C5: the keyboard of the 50-report run, whose windowed rate
is exactly 50, is not escalated by a further `threat_update_hid_activity`. -/
theorem C5_witness :
    threat_get_current_level
      (threat_update_hid_activity c5KeyboardRun50.1 1 c5KeyboardRun50.2 (some kbInfo)) 1 ≠
      THREAT_MALICIOUS :=
  C5_threshold_strictly_greater.1 c5KeyboardRun50.1 1 c5KeyboardRun50.2 (some kbInfo)
    (by decide) (by decide)

/-! ## Claim C2 -/

/-- C2 (code-bug exhibit): the claim — and the repository documentation
("non-mouse only" wiring in docs/API_REFERENCE.md, mouse → SAFE in the
classifier) — says a mouse-role device (hid_protocol = 2) never leaves
SAFE.  The code violates it: `tuh_hid_mount_cb` registers every HID
interface with the Rate Monitor and `threat_update_hid_activity` escalates
on the windowed rate with no role check, so a mounted mouse that sends 51
reports in one 1000 ms window (an ordinary rate for a real mouse) is
classified MALICIOUS even though its static classification was SAFE. -/
theorem C2_mouse_exemption_violated :
    mouseInfo.hid_protocol = 2 ∧
    threat_get_current_level c2MouseMount.2.1 1 = THREAT_SAFE ∧
    threat_get_current_level c2MouseRun.1 1 = THREAT_MALICIOUS := by
  refine ⟨by decide, by decide, by decide⟩

/-! ## Claim C3 -/

/-- C3 (code-bug exhibit): the claim — and docs/API_REFERENCE.md
("`hid_monitor_add_device()` (non-mouse only)") — says a mouse-role
interface gets no Rate Sample slot.  In the code `tuh_hid_mount_cb`
(usb_host.c, part_012) calls `hid_monitor_add_device` unconditionally:
mounting a mouse interface (`itf_protocol` = 2 — the third argument 2 of
`c2MouseMount`) allocates a monitoring slot for its address. -/
theorem C3_mouse_monitored_despite_role :
    hid_get_monitor_stats c2MouseMount.2.2 1 = some (freshMonitor 1 0) := by
  decide

/-! ## Claim C6 -/

/-- C6 (counterexample): calling `hid_monitor_add_device` twice with the
same address from the fresh table does NOT leave the table as after one
call — the function only scans for a free slot and never checks whether
the address is already monitored, so the second call claims a second
slot. -/
theorem C6_counterexample :
    hid_monitor_add_device (hid_monitor_add_device initMonitors 1 0) 1 0 ≠
      hid_monitor_add_device initMonitors 1 0 := by
  decide

/-- C6 (amended): `hid_monitor_add_device` does not check for an existing
slot with the same address: calling it twice with the same address
allocates a second Rate Sample slot for that address (two monitoring slots
for address 1 below); and when the slot table is full it logs and returns
without modifying any slot. -/
theorem C6_add_device_amended :
    (∀ (s : List hid_monitor_t) (a now : Nat),
        (∀ m ∈ s, m.is_monitoring = true) →
        hid_monitor_add_device s a now = s) ∧
    ((hid_monitor_add_device (hid_monitor_add_device initMonitors 1 0) 1 0).filter
        (monMatch 1)).length = 2 := by
  refine ⟨?_, by decide⟩
  intro s a now h
  apply updateFirst_of_none
  intro m hm
  simp [h m hm]

/-- Witness for C6 (amended): with all four slots in use, adding a fifth
device leaves the table unchanged. -/
theorem C6_witness :
    hid_monitor_add_device fullMonitors 5 0 = fullMonitors :=
  C6_add_device_amended.1 fullMonitors 5 0 (by decide)

/-! ## Claim C7 -/

theorem threat_get_device_at_index_mem :
    ∀ (s : List device_threat_t) (i : Nat) (t : device_threat_t),
      threat_get_device_at_index s i = some t → t ∈ s ∧ t.device.is_mounted = true := by
  intro s
  induction s with
  | nil => intro i t h; simp [threat_get_device_at_index] at h
  | cons x xs ih =>
      intro i t h
      simp only [threat_get_device_at_index] at h
      split at h
      · split at h
        · cases h
          rename_i hmnt _
          exact ⟨List.mem_cons_self _ _, hmnt⟩
        · rcases ih _ _ h with ⟨hm, hmt⟩
          exact ⟨List.mem_cons_of_mem _ hm, hmt⟩
      · rcases ih _ _ h with ⟨hm, hmt⟩
        exact ⟨List.mem_cons_of_mem _ hm, hmt⟩

/-- C7: for an address with no Threat Record and no Rate Sample (never
registered, or whose records are cleared), `threat_get_current_level`
returns SAFE and `hid_get_keystroke_rate` returns 0; both functions are
pure lookups (`threat_get_device_status` explicitly does not auto-create),
so the tables are unchanged and no enumerate-by-index call
(`threat_get_device_at_index`) ever surfaces an entry for that address. -/
theorem C7_unknown_address_defaults (ts : List device_threat_t)
    (hs : List hid_monitor_t) (a : Nat)
    (hT : ∀ t ∈ ts, t.device.dev_addr = a → t.device.is_mounted = false)
    (hH : ∀ m ∈ hs, m.dev_addr = a → m.is_monitoring = false) :
    threat_get_current_level ts a = THREAT_SAFE ∧
    hid_get_keystroke_rate hs a = 0 ∧
    ∀ (i : Nat) (t : device_threat_t),
      threat_get_device_at_index ts i = some t → t.device.dev_addr ≠ a := by
  have hTnone : findFirst (thMatch a) ts = none := by
    apply findFirst_eq_none
    intro t ht
    by_cases hd : t.device.dev_addr = a
    · simp [thMatch, hd, hT t ht hd]
    · simp [thMatch, hd]
  have hHnone : findFirst (monMatch a) hs = none := by
    apply findFirst_eq_none
    intro m hm
    by_cases hd : m.dev_addr = a
    · simp [monMatch, hd, hH m hm hd]
    · simp [monMatch, hd]
  refine ⟨?_, ?_, ?_⟩
  · simp [threat_get_current_level, threat_get_device_status, hTnone]
  · simp [hid_get_keystroke_rate, hid_get_monitor_stats, hHnone]
  · intro i t hidx hda
    rcases threat_get_device_at_index_mem ts i t hidx with ⟨hm, hmt⟩
    rw [hT t hm hda] at hmt
    cases hmt

/-- Witness for C7: address 7 is unknown to the freshly initialised tables;
the queries return the documented defaults. -/
theorem C7_witness :
    threat_get_current_level initThreats 7 = THREAT_SAFE ∧
    hid_get_keystroke_rate initMonitors 7 = 0 := by
  have h := C7_unknown_address_defaults initThreats initMonitors 7 (by decide) (by decide)
  exact ⟨h.1, h.2.1⟩

/-! ## Claim C10 -/

theorem reportStep_peak_ge (now : Nat) (m : hid_monitor_t) :
    m.peak_rate_hz ≤ (reportStep now m).peak_rate_hz := by
  simp only [reportStep]
  (repeat' split) <;> simp <;> omega

theorem ite_gt_eq_max (r p : Nat) : (if r > p then r else p) = max p r := by
  split
  · exact (Nat.max_eq_right (Nat.le_of_lt (by assumption))).symm
  · exact (Nat.max_eq_left (Nat.le_of_not_lt (by assumption))).symm

theorem stats_after_first_add (a now : Nat) :
    hid_get_monitor_stats (hid_monitor_add_device initMonitors a now) a =
      some (freshMonitor a now) := by
  have : initMonitors = [zeroMonitor, zeroMonitor, zeroMonitor, zeroMonitor] := by decide
  rw [this]
  simp [hid_monitor_add_device, updateFirst, hid_get_monitor_stats, findFirst,
        zeroMonitor, freshMonitor, monMatch]

theorem peak_char (a : Nat) (times : List Nat) :
    ∀ (s : List hid_monitor_t) (m : hid_monitor_t),
      hid_get_monitor_stats s a = some m →
      peakOf (runMonitor s a times) a =
        List.foldl max m.peak_rate_hz (closedRates s a times) := by
  induction times with
  | nil =>
      intro s m hm
      simp [runMonitor, peakOf, hm, closedRates]
  | cons t ts ih =>
      intro s m hm
      have hs' : hid_get_monitor_stats (hid_monitor_report s a t) a =
          some (reportStep t m) := by
        rw [stats_after_report, hm, Option.map_some']
      have hrun : runMonitor s a (t :: ts) = runMonitor (hid_monitor_report s a t) a ts := rfl
      rw [hrun, ih _ _ hs']
      by_cases hcl : t - m.last_window_start_ms ≥ KEYSTROKE_RATE_WINDOW_MS
      · have hcr : closedRate t m =
            some ((m.reports_this_second + 1) * 1000 / (t - m.last_window_start_ms)) := by
          simp [closedRate, hcl]
        have hpeak : (reportStep t m).peak_rate_hz =
            max m.peak_rate_hz
              ((m.reports_this_second + 1) * 1000 / (t - m.last_window_start_ms)) := by
          rw [reportStep_close t m hcl]
          exact ite_gt_eq_max _ _
        rw [closedRates, hm]
        simp only [hcr, Option.toList, hpeak]
        rfl
      · have hcr : closedRate t m = none := by
          simp [closedRate, hcl]
        have hpeak : (reportStep t m).peak_rate_hz = m.peak_rate_hz := by
          rw [reportStep_open t m (Nat.lt_of_not_le hcl)]
        rw [closedRates, hm]
        simp only [hcr, Option.toList, hpeak]
        rfl

/-- C10: for every monitored address the recorded `peak_rate_hz` is
monotonically non-decreasing over the lifetime of its monitoring slot —
no `hid_monitor_report` call (for this or any other address) ever lowers
it — and along any run that starts when `hid_monitor_add_device` creates
the slot, at every point it equals the maximum over all window rates
closed for that address since monitoring began (0 if none, the slot's
initial peak). -/
theorem C10_peak_rate_monotone_max :
    (∀ (s : List hid_monitor_t) (b now a : Nat),
        peakOf s a ≤ peakOf (hid_monitor_report s b now) a) ∧
    (∀ (a now0 : Nat) (times : List Nat),
        peakOf (runMonitor (hid_monitor_add_device initMonitors a now0) a times) a =
          List.foldl max 0
            (closedRates (hid_monitor_add_device initMonitors a now0) a times)) := by
  constructor
  · intro s b now a
    by_cases hb : b = a
    · subst hb
      simp only [peakOf, stats_after_report]
      cases hm : hid_get_monitor_stats s b with
      | none => simp
      | some m => simpa using reportStep_peak_ge now m
    · simp only [peakOf, stats_after_report_other s now hb]
      exact Nat.le_refl _
  · intro a now0 times
    have h := peak_char a times (hid_monitor_add_device initMonitors a now0)
      (freshMonitor a now0) (stats_after_first_add a now0)
    rw [h]
    rfl
